import Mathlib

/-!
Shallow embedding of the Log & Metrics Collector (`app.py`) core:
the severity classifier (`LogCollector.extract_log_level`), the bounded
log store (`LogCollector`), the file tailer (`LogFileHandler`), the
bootstrap loader (`LogMetricsCollector.load_existing_logs`) and the
metrics sampler (`SystemMetrics`).

Modelling conventions:
* Python strings are modelled as lists of character codes (`List Nat`);
  `str.upper`/`str.lower` are modelled on the ASCII range, which covers
  every token the program compares.  File contents are ASCII, so byte
  offsets (`os.path.getsize`, `f.seek`) coincide with character counts.
* `datetime.now()` timestamps and console printing are effects outside
  the pure embedding; log entries keep the fields the program stores
  and compares (`file`, `full_path`, `message`, `level`).
* A fallible host query or file operation is represented by an `Option`
  result or an explicit error flag; a Python `except` branch becomes
  the corresponding `none`/flag case.
-/

/-- Character codes of a string literal (ASCII model of a Python `str`). -/
def strCodes (s : String) : List Nat := s.toList.map Char.toNat

/-- ASCII model of Python `str.upper` on one character code. -/
def upc (n : Nat) : Nat := if 97 ≤ n ∧ n ≤ 122 then n - 32 else n

/-- ASCII model of Python `str.lower` on one character code. -/
def lwc (n : Nat) : Nat := if 65 ≤ n ∧ n ≤ 90 then n + 32 else n

/-- A file path, as a list of character codes. -/
abbrev FPath := List Nat

/-- ASCII whitespace recognised by Python `str.strip`. -/
def isSpaceCode (n : Nat) : Bool :=
  n = 32 || n = 9 || n = 10 || n = 13 || n = 11 || n = 12

/-- Python `str.strip()`: remove leading and trailing whitespace. -/
def strip (cs : List Nat) : List Nat :=
  ((cs.dropWhile isSpaceCode).reverse.dropWhile isSpaceCode).reverse

/-- Helper for `readLines`: accumulate the current (reversed) line. -/
def readLinesAux : List Nat → List Nat → List (List Nat)
  | [], acc => if acc.isEmpty then [] else [acc.reverse]
  | c :: rest, acc =>
    if c = 10 then (acc.reverse ++ [10]) :: readLinesAux rest []
    else readLinesAux rest (c :: acc)

/-- Python `f.readlines()`: split into lines, each keeping its trailing
newline; a final fragment without a newline is its own line. -/
def readLines (cs : List Nat) : List (List Nat) := readLinesAux cs []

/-- Split a code list on a separator code (helper for `basename`). -/
def splitOnCode (sep : Nat) : List Nat → List Nat → List (List Nat)
  | [], acc => [acc.reverse]
  | c :: rest, acc =>
    if c = sep then acc.reverse :: splitOnCode sep rest []
    else splitOnCode sep rest (c :: acc)

/-- POSIX `os.path.basename`: the part after the last slash. -/
def basename (p : FPath) : FPath := (splitOnCode 47 p []).getLastD []

/-- Tokens of the first classifier pattern `\[?(ERROR|CRITICAL|FATAL)\]?`. -/
def errorTokens : List (List Nat) :=
  [strCodes "ERROR", strCodes "CRITICAL", strCodes "FATAL"]

/-- Tokens of the second classifier pattern `\[?(WARN|WARNING)\]?`. -/
def warningTokens : List (List Nat) :=
  [strCodes "WARN", strCodes "WARNING"]

/-- Tokens of the third classifier pattern `\[?(INFO|INFORMATION)\]?`. -/
def infoTokens : List (List Nat) :=
  [strCodes "INFO", strCodes "INFORMATION"]

/-- Tokens of the fourth classifier pattern `\[?(DEBUG|TRACE)\]?`. -/
def debugTokens : List (List Nat) :=
  [strCodes "DEBUG", strCodes "TRACE"]

/-- `listStarts t l`: `t` is a prefix of `l` (code lists). -/
def listStarts : List Nat → List Nat → Bool
  | [], _ => true
  | _ :: _, [] => false
  | a :: t, b :: l => a == b && listStarts t l

/-- `listContains t l`: `t` occurs as a contiguous substring of `l`. -/
def listContains (t : List Nat) : List Nat → Bool
  | [] => t.isEmpty
  | b :: l => listStarts t (b :: l) || listContains t l

/-- `re.search(pattern, line, re.IGNORECASE)` succeeds for one of the
pattern classes above iff some token of the class occurs in the line,
case-insensitively: the bracket delimiters in the pattern are optional,
so they do not constrain matchability. -/
def matchesClass (line : List Nat) (toks : List (List Nat)) : Bool :=
  toks.any (fun t => listContains t (line.map upc))

/-- `LogCollector.extract_log_level` (app.py lines 104-127): try the four
pattern classes in order; the matched token is canonicalised to its class
name (`WARN`/`WARNING` ↦ `WARNING`, `INFO`/`INFORMATION` ↦ `INFO`,
`ERROR`/`CRITICAL`/`FATAL` ↦ `ERROR`, `DEBUG`/`TRACE` ↦ `DEBUG`);
no match yields `UNKNOWN`. -/
def extract_log_level (line : List Nat) : List Nat :=
  if matchesClass line errorTokens then strCodes "ERROR"
  else if matchesClass line warningTokens then strCodes "WARNING"
  else if matchesClass line infoTokens then strCodes "INFO"
  else if matchesClass line debugTokens then strCodes "DEBUG"
  else strCodes "UNKNOWN"

/-- A stored log entry (the fields of the dict built by
`LogCollector.add_log_entry`; the capture-time timestamp is an effect
outside the pure embedding). -/
structure LogEntry where
  file : FPath
  full_path : FPath
  message : List Nat
  level : List Nat
deriving Repr, DecidableEq

/-- The `log_stats` dictionary of `LogCollector`. -/
structure LogStats where
  total_entries : Nat
  error_count : Nat
  warning_count : Nat
  info_count : Nat
  debug_count : Nat
  unknown_count : Nat
deriving Repr, DecidableEq

/-- `collections.deque(maxlen)` append: the new element goes to the right
and the leftmost elements are dropped so that at most `maxlen` remain. -/
def dequeAppend (maxlen : Nat) (xs : List α) (x : α) : List α :=
  let ys := xs ++ [x]
  ys.drop (ys.length - maxlen)

/-- The last `n` elements of a list, in order (Python `xs[-n:]` for `n > 0`). -/
def takeLast (n : Nat) (xs : List α) : List α := xs.drop (xs.length - n)

/-- The mutable state of a `LogCollector` (app.py lines 68-79). -/
structure LogCollector where
  max_entries : Nat
  log_entries : List LogEntry
  log_stats : LogStats
deriving Repr, DecidableEq

/-- `LogCollector.__init__`: empty ring of capacity `max_entries`,
all six counters zero. -/
def LogCollector.init (max_entries : Nat) : LogCollector :=
  ⟨max_entries, [], ⟨0, 0, 0, 0, 0, 0⟩⟩

/-- The counter update inside `add_log_entry`: `total_entries` is always
incremented; then `count_key = level.lower() + "_count"` is incremented
when it is a key of `log_stats` (which holds exactly for the five
`*_count` keys). -/
def bumpStats (s : LogStats) (level : List Nat) : LogStats :=
  let s1 : LogStats := ⟨s.total_entries + 1, s.error_count, s.warning_count,
    s.info_count, s.debug_count, s.unknown_count⟩
  let key := level.map lwc ++ strCodes "_count"
  if key = strCodes "error_count" then
    ⟨s1.total_entries, s1.error_count + 1, s1.warning_count, s1.info_count,
      s1.debug_count, s1.unknown_count⟩
  else if key = strCodes "warning_count" then
    ⟨s1.total_entries, s1.error_count, s1.warning_count + 1, s1.info_count,
      s1.debug_count, s1.unknown_count⟩
  else if key = strCodes "info_count" then
    ⟨s1.total_entries, s1.error_count, s1.warning_count, s1.info_count + 1,
      s1.debug_count, s1.unknown_count⟩
  else if key = strCodes "debug_count" then
    ⟨s1.total_entries, s1.error_count, s1.warning_count, s1.info_count,
      s1.debug_count + 1, s1.unknown_count⟩
  else if key = strCodes "unknown_count" then
    ⟨s1.total_entries, s1.error_count, s1.warning_count, s1.info_count,
      s1.debug_count, s1.unknown_count + 1⟩
  else s1

/-- The entry dict built by `add_log_entry` for a path and a line. -/
def mkEntry (file_path : FPath) (line : List Nat) : LogEntry :=
  ⟨basename file_path, file_path, line, extract_log_level line⟩

/-- `LogCollector.add_log_entry` (app.py lines 81-102): build the entry,
append it to the ring (evicting the oldest when full) and update the
counters; ring insert and counter update happen under one lock. -/
def add_log_entry (c : LogCollector) (file_path : FPath) (line : List Nat) :
    LogCollector :=
  ⟨c.max_entries,
   dequeAppend c.max_entries c.log_entries (mkEntry file_path line),
   bumpStats c.log_stats (extract_log_level line)⟩

/-- `LogCollector.get_recent_logs` (app.py lines 129-143): snapshot the
ring, filter by `level_filter.upper()` when the filter is truthy (a
non-`None`, non-empty string), then keep the last `limit` entries when
`limit` is truthy (a non-`None`, non-zero int). -/
def get_recent_logs (c : LogCollector) (limit : Option Nat)
    (level_filter : Option (List Nat)) : List LogEntry :=
  let logs := c.log_entries
  let logs := match level_filter with
    | some lf => if lf ≠ [] then
        logs.filter (fun e => decide (e.level = lf.map upc)) else logs
    | none => logs
  match limit with
  | some n => if n ≠ 0 then takeLast n logs else logs
  | none => logs

/-- Calling `get_recent_logs` without arguments: the Python signature is
`get_recent_logs(self, limit=10, level_filter=None)`, so the defaulted
call passes `limit = 10` and no filter. -/
def get_recent_logs_default (c : LogCollector) : List LogEntry :=
  get_recent_logs c (some 10) none

/-- Run a sequence of `add_log_entry` calls left to right. -/
def run_appends (c : LogCollector) (ls : List (FPath × List Nat)) : LogCollector :=
  ls.foldl (fun c pl => add_log_entry c pl.1 pl.2) c

/-- One observation of a tailed file, as seen by one run of
`LogFileHandler.process_log_file`.  `content` is the file's bytes at
notification time (so `os.path.getsize` returns `content.length`);
`size_err` models an exception raised by `os.path.getsize`, and
`read_err` models an exception raised while opening, seeking, reading
or decoding the file.  Python catches either via the surrounding
`except` and logs it. -/
structure TailFile where
  content : List Nat
  size_err : Bool
  read_err : Bool
deriving Repr, DecidableEq

/-- The state owned by `LogFileHandler` plus the shared collector:
`file_positions` maps a path to the last consumed offset
(`self.file_positions.get(file_path, 0)` makes an absent path read 0,
so the map is modelled as a total function defaulting to 0). -/
structure HandlerState where
  file_positions : FPath → Nat
  log_collector : LogCollector

/-- `LogFileHandler.process_log_file` (app.py lines 37-62): read the
current size; if it grew beyond the tracked offset, read the new tail,
strip each line, deliver the non-blank ones to the collector and set the
offset to the observed size.  Any exception (size_err or read_err) is
caught and logged, leaving the whole state unchanged.  If the size did
not grow (including a truncated/rotated file), nothing happens. -/
def process_log_file (st : HandlerState) (file_path : FPath) (file : TailFile) :
    HandlerState :=
  if file.size_err then st
  else
    let current_size := file.content.length
    let last_position := st.file_positions file_path
    if current_size > last_position then
      if file.read_err then st
      else
        let new_lines := readLines (file.content.drop last_position)
        let collector := new_lines.foldl
          (fun c l =>
            let l2 := strip l
            if l2 ≠ [] then add_log_entry c file_path l2 else c)
          st.log_collector
        ⟨fun p => if p = file_path then current_size else st.file_positions p,
         collector⟩
    else st

/-- A watchdog file-system event as consumed by
`LogFileHandler.on_modified`. -/
structure FsEvent where
  is_directory : Bool
  src_path : FPath

/-- `LogFileHandler.on_modified` (app.py lines 32-35): process only
non-directory events whose path ends in `.log`. -/
def on_modified (st : HandlerState) (event : FsEvent) (file : TailFile) :
    HandlerState :=
  if !event.is_directory && listStarts (strCodes ".log").reverse event.src_path.reverse then
    process_log_file st event.src_path file
  else st

/-- One file's part of `LogMetricsCollector.load_existing_logs`
(app.py lines 488-497): read the whole file, take the last 10 lines,
strip each and deliver the non-blank ones to the collector; a read
error is caught and logged, skipping the file. -/
def load_existing_file (c : LogCollector) (file_path : FPath) (file : TailFile) :
    LogCollector :=
  if file.read_err then c
  else
    let lines := readLines file.content
    (takeLast 10 lines).foldl
      (fun c line =>
        let l2 := strip line
        if l2 ≠ [] then add_log_entry c file_path l2 else c)
      c

/-- `LogMetricsCollector.load_existing_logs` (app.py lines 479-497) over
one monitored directory, given its listing as (path, file) pairs: every
file whose name ends in `.log` is seeded via `load_existing_file`.
The handler's `file_positions` map is not touched by this method. -/
def load_existing_logs (st : HandlerState)
    (dir_listing : List (FPath × TailFile)) : HandlerState :=
  ⟨st.file_positions,
   dir_listing.foldl
     (fun c pf =>
       if listStarts (strCodes ".log").reverse pf.1.reverse then
         load_existing_file c pf.1 pf.2
       else c)
     st.log_collector⟩

/-- Result of `psutil.cpu_percent` / `psutil.cpu_count`. -/
structure CpuInfo where
  percent : Nat
  count : Nat
deriving Repr, DecidableEq

/-- Result of `psutil.virtual_memory` (the fields the program reads;
the GB conversion and 2-digit rounding of the float values are outside
the integer model). -/
structure MemInfo where
  percent : Nat
  used : Nat
  total : Nat
deriving Repr, DecidableEq

/-- Result of `psutil.disk_usage` on the root volume. -/
structure DiskInfo where
  percent : Nat
  used : Nat
  total : Nat
deriving Repr, DecidableEq

/-- Result of `psutil.net_io_counters`. -/
structure NetworkData where
  bytes_sent : Nat
  bytes_recv : Nat
  packets_sent : Nat
  packets_recv : Nat
deriving Repr, DecidableEq

/-- One cycle's host readings: each psutil query either returns a value
or raises (`none`). -/
structure Host where
  cpu : Option CpuInfo
  memory : Option MemInfo
  disk : Option DiskInfo
  processes : Option Nat
  network : Option NetworkData
deriving Repr, DecidableEq

/-- The metrics dict built by `SystemMetrics.get_current_metrics`
(timestamp is an effect outside the pure embedding). -/
structure MetricSnapshot where
  cpu : CpuInfo
  memory : MemInfo
  disk : DiskInfo
  processes : Nat
  network : NetworkData
deriving Repr, DecidableEq

/-- `SystemMetrics.get_current_metrics` (app.py lines 161-219): the cpu,
memory, disk and process-count queries run inside the outer `try`, so a
failure of any of them is caught by the outer `except`, which logs and
returns `None`.  Only the network query has its own inner `try`, which
degrades a failure to all-zero counters. -/
def get_current_metrics (h : Host) : Option MetricSnapshot :=
  match h.cpu, h.memory, h.disk, h.processes with
  | some cpu, some mem, some disk, some pc =>
    let network_data := match h.network with
      | some nd => nd
      | none => ⟨0, 0, 0, 0⟩
    some ⟨cpu, mem, disk, pc, network_data⟩
  | _, _, _, _ => none

/-- One iteration of `SystemMetrics.collect_metrics_continuously`
(app.py lines 221-233): append the snapshot to the bounded history when
one was produced, otherwise leave the history unchanged; the loop then
sleeps and continues either way. -/
def collect_cycle (max_history : Nat) (history : List MetricSnapshot)
    (h : Host) : List MetricSnapshot :=
  match get_current_metrics h with
  | some m => dequeAppend max_history history m
  | none => history

/-- The collection loop run over a finite schedule of host readings:
every cycle executes, regardless of earlier failures. -/
def collect_run (max_history : Nat) (history : List MetricSnapshot)
    (hs : List Host) : List MetricSnapshot :=
  hs.foldl (collect_cycle max_history) history

/-- Sum of the five per-level counters of the log statistics. -/
def statsSum (s : LogStats) : Nat :=
  s.error_count + s.warning_count + s.info_count + s.debug_count + s.unknown_count

/-- Concrete tailed path used by the evaluation scenarios. -/
def c1Path : FPath := strCodes "logs/test.log"

/-- A log file holding two complete lines (19 bytes). -/
def c1FileA : TailFile := ⟨strCodes "[ERROR] a\n[INFO] b\n", false, false⟩

/-- Fresh handler state: no offsets tracked, empty collector of capacity 200. -/
def c1State0 : HandlerState := ⟨fun _ => 0, LogCollector.init 200⟩

/-- Handler state after one successful notification for `c1FileA`. -/
def c1State1 : HandlerState := process_log_file c1State0 c1Path c1FileA

/-- The same file truncated to zero length and then appended with one
new line (9 bytes, smaller than the tracked offset). -/
def c1FileB : TailFile := ⟨strCodes "new line\n", false, false⟩

/-- Handler state after the first post-truncation notification. -/
def c1State2 : HandlerState := process_log_file c1State1 c1Path c1FileB

/-- Handler state after a second post-truncation notification. -/
def c1State3 : HandlerState := process_log_file c1State2 c1Path c1FileB

/-- Bootstrapped path for the tail-seed scenario. -/
def c2Path : FPath := strCodes "logs/app.log"

/-- A pre-existing log file with 12 complete lines (48 bytes). -/
def c2FileA : TailFile :=
  ⟨strCodes "l01\nl02\nl03\nl04\nl05\nl06\nl07\nl08\nl09\nl10\nl11\nl12\n",
   false, false⟩

/-- Fresh handler state for the bootstrap scenario. -/
def c2State0 : HandlerState := ⟨fun _ => 0, LogCollector.init 200⟩

/-- Handler state after `load_existing_logs` over a directory holding
exactly `c2FileA`. -/
def c2State1 : HandlerState := load_existing_logs c2State0 [(c2Path, c2FileA)]

/-- The same file after one real appended line. -/
def c2FileB : TailFile := ⟨c2FileA.content ++ strCodes "new\n", false, false⟩

/-- Handler state after the first change notification following bootstrap. -/
def c2State2 : HandlerState := process_log_file c2State1 c2Path c2FileB

/-- A store holding 11 entries (one more than the Python default limit). -/
def cEx11 : LogCollector :=
  run_appends (LogCollector.init 200)
    (List.replicate 11 (strCodes "a.log", strCodes "hello"))

/-- A store holding one INFO entry then one ERROR entry. -/
def cEx7 : LogCollector :=
  add_log_entry
    (add_log_entry (LogCollector.init 200) (strCodes "a.log") (strCodes "[INFO] ok"))
    (strCodes "a.log") (strCodes "[ERROR] bad")

/-- A store holding a single ERROR entry. -/
def cEx7b : LogCollector :=
  add_log_entry (LogCollector.init 200) (strCodes "a.log") (strCodes "[ERROR] x")

/-- Host readings where only the CPU query raises. -/
def hostCpuFail : Host :=
  ⟨none, some ⟨50, 4, 8⟩, some ⟨70, 100, 200⟩, some 123, some ⟨1, 2, 3, 4⟩⟩

/-- Host readings where only the network query raises. -/
def hostNetFail : Host :=
  ⟨some ⟨10, 8⟩, some ⟨50, 4, 8⟩, some ⟨70, 100, 200⟩, some 123, none⟩

lemma upc_upc (n : Nat) : upc (upc n) = upc n := by
  unfold upc
  by_cases h : 97 ≤ n ∧ n ≤ 122
  · simp only [if_pos h]
    rw [if_neg (by omega)]
  · simp only [if_neg h]

lemma upc_lwc (n : Nat) : upc (lwc n) = upc n := by
  unfold upc lwc
  by_cases h : 65 ≤ n ∧ n ≤ 90
  · simp only [if_pos h]
    rw [if_pos (by omega), if_neg (by omega)]
    omega
  · simp only [if_neg h]

lemma map_upc_upc (l : List Nat) : (l.map upc).map upc = l.map upc := by
  induction l with
  | nil => rfl
  | cons a t ih => simp [upc_upc, ih]

lemma map_upc_lwc (l : List Nat) : (l.map lwc).map upc = l.map upc := by
  induction l with
  | nil => rfl
  | cons a t ih => simp [upc_lwc, ih]

lemma matchesClass_map_upc (l : List Nat) (toks : List (List Nat)) :
    matchesClass (l.map upc) toks = matchesClass l toks := by
  unfold matchesClass
  rw [map_upc_upc]

lemma matchesClass_map_lwc (l : List Nat) (toks : List (List Nat)) :
    matchesClass (l.map lwc) toks = matchesClass l toks := by
  unfold matchesClass
  rw [map_upc_lwc]

lemma extract_map_upc (l : List Nat) :
    extract_log_level (l.map upc) = extract_log_level l := by
  unfold extract_log_level
  simp only [matchesClass_map_upc]

lemma extract_map_lwc (l : List Nat) :
    extract_log_level (l.map lwc) = extract_log_level l := by
  unfold extract_log_level
  simp only [matchesClass_map_lwc]

lemma extract_cases (m : List Nat) :
    extract_log_level m = strCodes "ERROR" ∨
    extract_log_level m = strCodes "WARNING" ∨
    extract_log_level m = strCodes "INFO" ∨
    extract_log_level m = strCodes "DEBUG" ∨
    extract_log_level m = strCodes "UNKNOWN" := by
  unfold extract_log_level
  by_cases h1 : matchesClass m errorTokens
  · simp [h1]
  by_cases h2 : matchesClass m warningTokens
  · simp [h1, h2]
  by_cases h3 : matchesClass m infoTokens
  · simp [h1, h2, h3]
  by_cases h4 : matchesClass m debugTokens
  · simp [h1, h2, h3, h4]
  · simp [h1, h2, h3, h4]

lemma bump_err (s : LogStats) : bumpStats s (strCodes "ERROR") =
    ⟨s.total_entries + 1, s.error_count + 1, s.warning_count, s.info_count,
      s.debug_count, s.unknown_count⟩ := rfl

lemma bump_warn (s : LogStats) : bumpStats s (strCodes "WARNING") =
    ⟨s.total_entries + 1, s.error_count, s.warning_count + 1, s.info_count,
      s.debug_count, s.unknown_count⟩ := rfl

lemma bump_info (s : LogStats) : bumpStats s (strCodes "INFO") =
    ⟨s.total_entries + 1, s.error_count, s.warning_count, s.info_count + 1,
      s.debug_count, s.unknown_count⟩ := rfl

lemma bump_dbg (s : LogStats) : bumpStats s (strCodes "DEBUG") =
    ⟨s.total_entries + 1, s.error_count, s.warning_count, s.info_count,
      s.debug_count + 1, s.unknown_count⟩ := rfl

lemma bump_unk (s : LogStats) : bumpStats s (strCodes "UNKNOWN") =
    ⟨s.total_entries + 1, s.error_count, s.warning_count, s.info_count,
      s.debug_count, s.unknown_count + 1⟩ := rfl

lemma bump_total (s : LogStats) (level : List Nat) :
    (bumpStats s level).total_entries = s.total_entries + 1 := by
  unfold bumpStats
  dsimp only
  split
  · rfl
  split
  · rfl
  split
  · rfl
  split
  · rfl
  split
  · rfl
  · rfl

lemma bump_extract_sum (s : LogStats) (m : List Nat) :
    statsSum (bumpStats s (extract_log_level m)) = statsSum s + 1 := by
  rcases extract_cases m with h | h | h | h | h <;>
    rw [h] <;>
    simp only [bump_err, bump_warn, bump_info, bump_dbg, bump_unk, statsSum] <;>
    omega

lemma takeLast_of_le (n : Nat) (xs : List α) (h : xs.length ≤ n) :
    takeLast n xs = xs := by
  unfold takeLast
  rw [Nat.sub_eq_zero_of_le h, List.drop_zero]

lemma length_takeLast (n : Nat) (xs : List α) :
    (takeLast n xs).length = min n xs.length := by
  unfold takeLast
  rw [List.length_drop]
  omega

lemma takeLast_append_takeLast (n : Nat) (xs ys : List α) :
    takeLast n (takeLast n xs ++ ys) = takeLast n (xs ++ ys) := by
  unfold takeLast
  rw [← List.drop_append_of_le_length (Nat.sub_le xs.length n), List.drop_drop]
  congr 1
  rw [List.length_drop, List.length_append]
  omega

lemma dequeAppend_eq_takeLast (C : Nat) (xs : List α) (x : α) :
    dequeAppend C xs x = takeLast C (xs ++ [x]) := rfl

lemma dequeAppend_length_le (C : Nat) (xs : List α) (x : α) :
    (dequeAppend C xs x).length ≤ C := by
  unfold dequeAppend
  dsimp only
  rw [List.length_drop]
  omega

lemma run_appends_max (ls : List (FPath × List Nat)) (c : LogCollector) :
    (run_appends c ls).max_entries = c.max_entries := by
  induction ls generalizing c with
  | nil => rfl
  | cons x t ih =>
    show (run_appends (add_log_entry c x.1 x.2) t).max_entries = _
    rw [ih]
    rfl

lemma run_appends_entries (ls : List (FPath × List Nat)) (c : LogCollector)
    (h : c.log_entries.length ≤ c.max_entries) :
    (run_appends c ls).log_entries =
      takeLast c.max_entries
        (c.log_entries ++ ls.map (fun pl => mkEntry pl.1 pl.2)) := by
  induction ls generalizing c with
  | nil =>
    simpa [run_appends] using (takeLast_of_le _ _ h).symm
  | cons x t ih =>
    have step : run_appends c (x :: t) = run_appends (add_log_entry c x.1 x.2) t :=
      rfl
    have hlen : (add_log_entry c x.1 x.2).log_entries.length ≤
        (add_log_entry c x.1 x.2).max_entries :=
      dequeAppend_length_le _ _ _
    rw [step, ih _ hlen]
    show takeLast c.max_entries
        (dequeAppend c.max_entries c.log_entries (mkEntry x.1 x.2) ++ _) = _
    rw [dequeAppend_eq_takeLast, takeLast_append_takeLast]
    simp

lemma run_appends_total (ls : List (FPath × List Nat)) (c : LogCollector) :
    (run_appends c ls).log_stats.total_entries =
      c.log_stats.total_entries + ls.length := by
  induction ls generalizing c with
  | nil => rfl
  | cons x t ih =>
    show (run_appends (add_log_entry c x.1 x.2) t).log_stats.total_entries = _
    rw [ih]
    show (bumpStats c.log_stats (extract_log_level x.2)).total_entries + t.length = _
    rw [bump_total]
    simp only [List.length_cons]
    omega

lemma run_appends_sum_inv (ls : List (FPath × List Nat)) (c : LogCollector)
    (h : c.log_stats.total_entries = statsSum c.log_stats) :
    (run_appends c ls).log_stats.total_entries =
      statsSum (run_appends c ls).log_stats := by
  induction ls generalizing c with
  | nil => exact h
  | cons x t ih =>
    refine ih (add_log_entry c x.1 x.2) ?_
    show (bumpStats c.log_stats (extract_log_level x.2)).total_entries =
      statsSum (bumpStats c.log_stats (extract_log_level x.2))
    rw [bump_total, bump_extract_sum, h]

lemma process_size_err (st : HandlerState) (p : FPath) (f : TailFile)
    (h : f.size_err = true) : process_log_file st p f = st := by
  unfold process_log_file
  rw [h]
  rfl

lemma process_no_growth (st : HandlerState) (p : FPath) (f : TailFile)
    (h1 : f.size_err = false)
    (h2 : ¬ f.content.length > st.file_positions p) :
    process_log_file st p f = st := by
  unfold process_log_file
  rw [h1]
  simp only [Bool.false_eq_true, if_false]
  rw [if_neg h2]

lemma process_read_err (st : HandlerState) (p : FPath) (f : TailFile)
    (h1 : f.size_err = false) (h3 : f.read_err = true) :
    process_log_file st p f = st := by
  unfold process_log_file
  rw [h1, h3]
  simp only [Bool.false_eq_true, if_false, if_true]
  split <;> rfl

lemma process_success_offset (st : HandlerState) (p : FPath) (f : TailFile)
    (h1 : f.size_err = false)
    (h2 : f.content.length > st.file_positions p)
    (h3 : f.read_err = false) :
    (process_log_file st p f).file_positions p = f.content.length := by
  unfold process_log_file
  rw [h1, h3]
  simp only [Bool.false_eq_true, if_false]
  rw [if_pos h2]
  simp

lemma collect_cycle_none (maxh : Nat) (hist : List MetricSnapshot) (h : Host)
    (hn : get_current_metrics h = none) :
    collect_cycle maxh hist h = hist := by
  unfold collect_cycle
  rw [hn]

/-- C1: evaluation of the code at the failing input.  A file is tailed
to offset 19 (two lines ingested), then truncated to zero length and
appended with one 9-byte line.  The next notification (and every later
one) leaves the offset at 19 — not 0 as the claim requires — and
ingests nothing: the tailer stalls permanently and the appended line
is never observed. -/
theorem c1_truncation_stall_eval :
    c1State1.file_positions c1Path = c1FileA.content.length ∧
    c1State1.log_collector.log_stats.total_entries = 2 ∧
    c1FileB.content.length < c1State1.file_positions c1Path ∧
    c1State2.file_positions c1Path = c1State1.file_positions c1Path ∧
    ¬ c1State2.file_positions c1Path = 0 ∧
    c1State2.log_collector = c1State1.log_collector ∧
    c1State3.file_positions c1Path = c1State1.file_positions c1Path ∧
    c1State3.log_collector.log_stats.total_entries = 2 := by
  decide

/-- C2: evaluation of the code at the failing input.  Bootstrapping over
a 12-line file ingests its last 10 lines (the first seeded message is
line 3), but leaves the tracked offset at 0 instead of the file size; the
first change notification after one appended line therefore re-reads the
whole file, delivering 13 entries (total 23) instead of just the one new
line. -/
theorem c2_bootstrap_no_offset_eval :
    c2State1.log_collector.log_stats.total_entries = 10 ∧
    (c2State1.log_collector.log_entries.map (fun e => e.message)).head?
      = some (strCodes "l03") ∧
    c2State1.file_positions c2Path = 0 ∧
    ¬ c2State1.file_positions c2Path = c2FileA.content.length ∧
    c2State2.log_collector.log_stats.total_entries = 23 := by
  decide

/-- C3 counterexample: with 11 entries stored, calling the query without
supplying a limit (the Python default is `limit=10`) returns only the
last 10 entries, not all of them. -/
theorem c3_default_limit_counterexample :
    cEx11.log_entries.length = 11 ∧
    (get_recent_logs_default cEx11).length = 10 ∧
    get_recent_logs_default cEx11 ≠ cEx11.log_entries := by
  decide

/-- C3 amended: a falsy `limit` (`None`, or `0`) returns all current
ring entries (filtered when a non-empty level filter is given); it is
only the defaulted call, `limit=10`, that truncates. -/
theorem c3_falsy_limit_returns_all (c : LogCollector) (lf : List Nat)
    (hlf : lf ≠ []) :
    get_recent_logs c none none = c.log_entries ∧
    get_recent_logs c (some 0) none = c.log_entries ∧
    get_recent_logs c none (some lf)
      = c.log_entries.filter (fun e => decide (e.level = lf.map upc)) := by
  refine ⟨rfl, rfl, ?_⟩
  unfold get_recent_logs
  dsimp only
  rw [if_pos hlf]

/-- C3 witness: the amended statement applied at a concrete store and
filter. -/
theorem c3_falsy_limit_witness :
    get_recent_logs cEx11 none (some (strCodes "ERROR"))
      = cEx11.log_entries.filter
          (fun e => decide (e.level = (strCodes "ERROR").map upc)) :=
  (c3_falsy_limit_returns_all cEx11 (strCodes "ERROR") (by decide)).2.2

/-- C9: any I/O error while processing a notification — whether raised
by `os.path.getsize` (`size_err`) or while opening/seeking/reading
(`read_err`) — is caught, and the handler state (tracked offsets and
collector) is exactly unchanged, so the next notification retries from
the same offset. -/
theorem c9_io_error_leaves_state (st : HandlerState) (p : FPath) (f : TailFile)
    (h : f.size_err = true ∨ f.read_err = true) :
    process_log_file st p f = st := by
  rcases h with h | h
  · exact process_size_err st p f h
  · rcases hs : f.size_err with _ | _
    · exact process_read_err st p f hs h
    · exact process_size_err st p f hs

/-- C9 witness: a concrete failing read leaves a concrete state unchanged. -/
theorem c9_io_error_witness :
    process_log_file c1State0 c1Path ⟨strCodes "x\n", false, true⟩ = c1State0 :=
  c9_io_error_leaves_state c1State0 c1Path ⟨strCodes "x\n", false, true⟩ (Or.inr rfl)

/-- C8: a duplicate notification for a file that has not grown (observed
size equal to the tracked offset) yields zero new entries and leaves the
whole handler state unchanged; moreover processing a notification is
idempotent — reprocessing the same file observation is always a no-op. -/
theorem c8_duplicate_notification_idempotent (st : HandlerState) (p : FPath)
    (f : TailFile) :
    (f.size_err = false → f.content.length = st.file_positions p →
      process_log_file st p f = st) ∧
    process_log_file (process_log_file st p f) p f = process_log_file st p f := by
  constructor
  · intro h1 h2
    exact process_no_growth st p f h1 (by omega)
  · by_cases hs : f.size_err = true
    · have h0 := process_size_err st p f hs
      rw [h0]
      exact h0
    · have hs2 : f.size_err = false := by
        simpa using hs
      by_cases hg : f.content.length > st.file_positions p
      · by_cases hr : f.read_err = true
        · have h0 := process_read_err st p f hs2 hr
          rw [h0]
          exact h0
        · have hr2 : f.read_err = false := by
            simpa using hr
          have hoff := process_success_offset st p f hs2 hg hr2
          exact process_no_growth _ p f hs2 (by omega)
      · have h0 := process_no_growth st p f hs2 hg
        rw [h0]
        exact h0

/-- C8 witness: the no-growth clause applied at a concrete state whose
tracked offset equals the file size. -/
theorem c8_duplicate_notification_witness :
    process_log_file c1State1 c1Path c1FileA = c1State1 :=
  (c8_duplicate_notification_idempotent c1State1 c1Path c1FileA).1 rfl (by decide)

/-- C10: after every sequence of `add_log_entry` calls on a fresh store
of any capacity, `total_entries` equals the sum of the five per-level
counters: the classifier yields one of the five levels and each append
increments `total_entries` and exactly that level's counter. -/
theorem c10_total_eq_sum_of_level_counts (C : Nat)
    (ls : List (FPath × List Nat)) :
    (run_appends (LogCollector.init C) ls).log_stats.total_entries
      = statsSum (run_appends (LogCollector.init C) ls).log_stats :=
  run_appends_sum_inv ls (LogCollector.init C) rfl

/-- C5: for every sequence of appends longer than the capacity `C`, the
store retains exactly the last `C` entries in insertion order, while
`total_entries` counts every append ever made and grows by exactly one
on each further append (so it is monotone and never decremented by
eviction). -/
theorem c5_ring_eviction_and_total (C : Nat) (ls : List (FPath × List Nat))
    (h : C < ls.length) :
    (run_appends (LogCollector.init C) ls).log_entries
      = takeLast C (ls.map (fun pl => mkEntry pl.1 pl.2)) ∧
    (run_appends (LogCollector.init C) ls).log_entries.length = C ∧
    (run_appends (LogCollector.init C) ls).log_stats.total_entries = ls.length ∧
    (∀ p m, (add_log_entry (run_appends (LogCollector.init C) ls) p m).log_stats.total_entries = (run_appends (LogCollector.init C) ls).log_stats.total_entries + 1) := by
  have hent := run_appends_entries ls (LogCollector.init C) (by simp [LogCollector.init])
  have hmax : (LogCollector.init C).max_entries = C := rfl
  have hents : (run_appends (LogCollector.init C) ls).log_entries
      = takeLast C (ls.map (fun pl => mkEntry pl.1 pl.2)) := by
    rw [hent, hmax]
    show takeLast C ([] ++ _) = _
    rw [List.nil_append]
  refine ⟨hents, ?_, ?_, ?_⟩
  · rw [hents, length_takeLast, List.length_map]
    omega
  · rw [run_appends_total]
    simp [LogCollector.init]
  · intro p m
    exact bump_total _ _

/-- C5 witness: capacity 1, two appends — the ring keeps only the second
entry and `total_entries` is 2. -/
theorem c5_ring_eviction_witness :
    (run_appends (LogCollector.init 1) [(strCodes "a.log", strCodes "x"), (strCodes "a.log", strCodes "y")]).log_entries
      = takeLast 1
          ([(strCodes "a.log", strCodes "x"), (strCodes "a.log", strCodes "y")].map
            (fun pl => mkEntry pl.1 pl.2)) :=
  (c5_ring_eviction_and_total 1
    [(strCodes "a.log", strCodes "x"), (strCodes "a.log", strCodes "y")] (by decide)).1

lemma mem_of_mem_takeLast {a : α} {n : Nat} {l : List α}
    (h : a ∈ takeLast n l) : a ∈ l :=
  List.mem_of_mem_drop h

lemma takeLast_suffix (n : Nat) (l : List α) : takeLast n l <:+ l :=
  List.drop_suffix _ _

/-- C6: the severity classifier is a pure function of the line, is
case-insensitive (upper- or lower-casing the line does not change the
result), tries the four pattern classes in the fixed order ERROR-class,
WARNING-class, INFO-class, DEBUG-class with the first matching class
winning, returns UNKNOWN when no class matches (in particular on the
empty line), and classifies the three specification examples as
WARNING, UNKNOWN and ERROR; tokens match bare, without bracket
delimiters. -/
theorem c6_classifier_order_and_examples (line : List Nat) :
    extract_log_level (line.map upc) = extract_log_level line ∧
    extract_log_level (line.map lwc) = extract_log_level line ∧
    (matchesClass line errorTokens = true →
      extract_log_level line = strCodes "ERROR") ∧
    (matchesClass line errorTokens = false →
      matchesClass line warningTokens = true →
      extract_log_level line = strCodes "WARNING") ∧
    (matchesClass line errorTokens = false →
      matchesClass line warningTokens = false →
      matchesClass line infoTokens = true →
      extract_log_level line = strCodes "INFO") ∧
    (matchesClass line errorTokens = false →
      matchesClass line warningTokens = false →
      matchesClass line infoTokens = false →
      matchesClass line debugTokens = true →
      extract_log_level line = strCodes "DEBUG") ∧
    (matchesClass line errorTokens = false →
      matchesClass line warningTokens = false →
      matchesClass line infoTokens = false →
      matchesClass line debugTokens = false →
      extract_log_level line = strCodes "UNKNOWN") ∧
    extract_log_level [] = strCodes "UNKNOWN" ∧
    extract_log_level (strCodes "2024-01-01 WARN disk low") = strCodes "WARNING" ∧
    extract_log_level (strCodes "no level here") = strCodes "UNKNOWN" ∧
    extract_log_level (strCodes "[CRITICAL] meltdown") = strCodes "ERROR" := by
  refine ⟨extract_map_upc line, extract_map_lwc line, ?_, ?_, ?_, ?_, ?_,
    by decide, by decide, by decide, by decide⟩
  · intro h1
    simp [extract_log_level, h1]
  · intro h1 h2
    simp [extract_log_level, h1, h2]
  · intro h1 h2 h3
    simp [extract_log_level, h1, h2, h3]
  · intro h1 h2 h3 h4
    simp [extract_log_level, h1, h2, h3, h4]
  · intro h1 h2 h3 h4
    simp [extract_log_level, h1, h2, h3, h4]

/-- C6 witness: the precedence clause applied at a line containing both a
WARNING-class and a DEBUG-class token (case-insensitively): the earlier
class wins. -/
theorem c6_classifier_witness :
    extract_log_level (strCodes "warn then TRACE") = strCodes "WARNING" :=
  (c6_classifier_order_and_examples (strCodes "warn then TRACE")).2.2.2.1
    (by decide) (by decide)

/-- C7 counterexample: the claim quantifies over every limit, but for
`limit = 0` (falsy in Python) the query returns the whole snapshot
instead of at most 0 entries. -/
theorem c7_zero_limit_counterexample :
    (get_recent_logs cEx7b (some 0) none).length = 1 ∧
    ¬ (get_recent_logs cEx7b (some 0) none).length ≤ 0 := by
  decide

/-- C7 amended: for every store, every non-zero limit and every
non-empty level filter, the query filters the ring snapshot by severity
first and then keeps the last `limit` of the filtered list (never
tail-then-filter): the result equals `takeLast limit (filter ...)`,
contains only entries of the requested level, has at most `limit`
entries, and is a suffix of the filtered snapshot — hence ordered
oldest-to-newest and never drawing on evicted entries. -/
theorem c7_filter_then_tail (c : LogCollector) (n : Nat) (lf : List Nat)
    (hn : n ≠ 0) (hlf : lf ≠ []) :
    get_recent_logs c (some n) (some lf)
      = takeLast n (c.log_entries.filter (fun e => decide (e.level = lf.map upc))) ∧
    (∀ e, e ∈ get_recent_logs c (some n) (some lf) → e.level = lf.map upc) ∧
    (get_recent_logs c (some n) (some lf)).length ≤ n ∧
    get_recent_logs c (some n) (some lf)
      <:+ c.log_entries.filter (fun e => decide (e.level = lf.map upc)) := by
  have heq : get_recent_logs c (some n) (some lf)
      = takeLast n (c.log_entries.filter (fun e => decide (e.level = lf.map upc))) := by
    unfold get_recent_logs
    dsimp only
    rw [if_pos hlf, if_pos hn]
  refine ⟨heq, ?_, ?_, ?_⟩
  · intro e he
    rw [heq] at he
    have he2 := List.mem_filter.mp (mem_of_mem_takeLast he)
    exact of_decide_eq_true he2.2
  · rw [heq, length_takeLast]
    omega
  · rw [heq]
    exact takeLast_suffix _ _

/-- C7 witness: the filter-then-tail equation applied at a concrete
store with one INFO and one ERROR entry, limit 1 and filter ERROR. -/
theorem c7_filter_then_tail_witness :
    get_recent_logs cEx7 (some 1) (some (strCodes "ERROR"))
      = takeLast 1 (cEx7.log_entries.filter
          (fun e => decide (e.level = (strCodes "ERROR").map upc))) :=
  (c7_filter_then_tail cEx7 1 (strCodes "ERROR") (by decide) (by decide)).1

/-- C4 counterexample: the claim says a CPU-query failure degrades only
the cpu sub-metric and still produces the snapshot; in the code the cpu
query runs inside the outer `try`, so its failure yields no snapshot at
all and the cycle appends nothing. -/
theorem c4_cpu_failure_counterexample :
    get_current_metrics hostCpuFail = none ∧
    collect_cycle 100 [] hostCpuFail = [] := by
  decide

/-- C4 amended: only a network-counters failure is degraded (to all-zero
counters) while the snapshot is still produced; a failure of the CPU,
memory, disk or process-count query makes the whole snapshot fail, and a
failed snapshot skips only that cycle — the collection loop runs every
remaining cycle unchanged. -/
theorem c4_network_only_degradation (h : Host) (cpu : CpuInfo) (mem : MemInfo)
    (disk : DiskInfo) (pc maxh : Nat) (hist : List MetricSnapshot)
    (pre post : List Host) :
    (h.cpu = some cpu → h.memory = some mem → h.disk = some disk →
      h.processes = some pc → h.network = none →
      get_current_metrics h = some ⟨cpu, mem, disk, pc, ⟨0, 0, 0, 0⟩⟩) ∧
    ((h.cpu = none ∨ h.memory = none ∨ h.disk = none ∨ h.processes = none) →
      get_current_metrics h = none ∧ collect_cycle maxh hist h = hist) ∧
    (get_current_metrics h = none →
      collect_run maxh hist (pre ++ h :: post) = collect_run maxh hist (pre ++ post)) := by
  refine ⟨?_, ?_, ?_⟩
  · intro h1 h2 h3 h4 h5
    unfold get_current_metrics
    rw [h1, h2, h3, h4, h5]
  · intro hfail
    have hnone : get_current_metrics h = none := by
      rcases hcpu : h.cpu with _ | cpu2 <;>
      rcases hmem : h.memory with _ | mem2 <;>
      rcases hdisk : h.disk with _ | disk2 <;>
      rcases hproc : h.processes with _ | pc2 <;>
        simp_all [get_current_metrics]
    exact ⟨hnone, collect_cycle_none _ _ _ hnone⟩
  · intro hnone
    unfold collect_run
    rw [List.foldl_append, List.foldl_append, List.foldl_cons,
      collect_cycle_none _ _ _ hnone]

/-- C4 witness: the network-degradation clause applied at host readings
where exactly the network query fails, and the skip clause applied at a
cycle whose CPU query fails. -/
theorem c4_network_only_degradation_witness :
    get_current_metrics hostNetFail
      = some ⟨⟨10, 8⟩, ⟨50, 4, 8⟩, ⟨70, 100, 200⟩, 123, ⟨0, 0, 0, 0⟩⟩ ∧
    collect_run 100 [] [hostCpuFail] = collect_run 100 [] [] :=
  ⟨(c4_network_only_degradation hostNetFail ⟨10, 8⟩ ⟨50, 4, 8⟩ ⟨70, 100, 200⟩
      123 100 [] [] []).1 rfl rfl rfl rfl rfl,
   (c4_network_only_degradation hostCpuFail ⟨10, 8⟩ ⟨50, 4, 8⟩ ⟨70, 100, 200⟩
      123 100 [] [] []).2.2 (by decide)⟩

